import Mathlib

/-!
Verification of the cross-generation CI build reconciliation and metrics tool.

This file gives a shallow embedding of the tool's core (the data model in
`drone.rs`, the window filter in `main.rs`, and the per-bucket metrics
computation in `csv.rs`) and proves the behavioural properties stated in the
specification against that embedding.

Modelling conventions:
- Rust `u32` fields are modelled as `Nat`, `i64` fields as `Int` (the tool
  performs no wrap-around arithmetic on them).
- `SystemTime` is modelled as a `Nat` of seconds since `UNIX_EPOCH`
  (`SystemTime` values in the program are always `UNIX_EPOCH + duration`).
- A Rust panic (`unwrap` on `None`, explicit `panic!`) is modelled by an
  `Option`/outcome value: `none` (or `.panicked`) marks the aborting path.
- `reqwest::Url` is external-library data; the core only ever consults its
  path segments, so it is modelled by that observation: `path_segments` is
  `none` for cannot-be-a-base URLs and otherwise the list of `/`-separated
  path components.
-/

/-- Build/stage/step status (`DroneStatus` in `drone.rs`); unknown wire values
decode to `Other` via `#[serde(other)]`. -/
inductive DroneStatus where
  | Success
  | Failure
  | Killed
  | Error
  | Running
  | Skipped
  | Pending
  | Other
deriving DecidableEq, Repr

/-- Trigger event kind (`DroneEvent` in `drone.rs`); unknown wire values decode
to `Other`. -/
inductive DroneEvent where
  | PullRequest
  | Push
  | Tag
  | Other
deriving DecidableEq, Repr

/-- Model of `reqwest::Url` restricted to the one observation the core makes:
`Url::path_segments()`, which is `None` for cannot-be-a-base URLs and otherwise
the `/`-separated path components (never an empty list for a real URL, but the
model does not assume that). -/
structure Url where
  path_segments : Option (List String)
deriving DecidableEq, Repr

/-- `DroneGitMetadata` in `drone.rs` (serde-renamed from `before`/`after`/`ref`). -/
structure DroneGitMetadata where
  prev_git_sha : String
  git_sha : String
  git_ref : String
deriving DecidableEq, Repr

/-- `DroneBuildTimestamps` in `drone.rs`: signed epoch seconds. -/
structure DroneBuildTimestamps where
  started : Int
  finished : Int
  created : Int
  updated : Int
deriving DecidableEq, Repr

/-- `DroneStageTimestamps` in `drone.rs`: signed epoch seconds. -/
structure DroneStageTimestamps where
  started : Int
  stopped : Int
  created : Int
  updated : Int
deriving DecidableEq, Repr

/-- `DroneBuildAuthorData` in `drone.rs`. -/
structure DroneBuildAuthorData where
  author_login : String
  author_name : String
  author_email : String
  author_avatar : Url
deriving DecidableEq, Repr

/-- `DroneBuildListItem` in `drone.rs`: one entry of the paginated build list
(a BuildSummary in the spec's terms). -/
structure DroneBuildListItem where
  id : Nat
  repo_id : Nat
  trigger : String
  number : Nat
  status : DroneStatus
  event : DroneEvent
  action : String
  link : Url
  timestamp : Nat
  message : String
  git_metadata : DroneGitMetadata
  source_repo : String
  source : String
  target : String
  author_data : DroneBuildAuthorData
  sender : String
  timestamps : DroneBuildTimestamps
  version : Nat
deriving DecidableEq, Repr

/-- `Drone1Step` in `drone.rs`: the common (Gen1) step payload.
`started`/`stopped` are optional: absent when the step has not run. -/
structure Drone1Step where
  id : Nat
  step_id : Nat
  number : Nat
  name : String
  status : DroneStatus
  errignore : Option Bool
  exit_code : Int
  started : Option Int
  stopped : Option Int
  version : Nat
deriving DecidableEq, Repr

/-- `Drone2Step` in `drone.rs`: the Gen1 payload plus Gen2-only fields. -/
structure Drone2Step where
  drone_step : Drone1Step
  depends_on : Option (List String)
  image : String
deriving DecidableEq, Repr

/-- `DroneStep` in `drone.rs`: untagged union of the two step shapes. -/
inductive DroneStep where
  | Drone1Step (step : Drone1Step)
  | Drone2Step (step : Drone2Step)
deriving DecidableEq, Repr

/-- `Drone1Stage` in `drone.rs`: the common (Gen1) stage payload. -/
structure Drone1Stage where
  id : Nat
  repo_id : Nat
  build_id : Nat
  number : Nat
  name : String
  status : DroneStatus
  errignore : Bool
  exit_code : Int
  machine : Option String
  os : String
  arch : String
  timestamps : DroneStageTimestamps
  version : Nat
  on_success : Bool
  on_failure : Bool
  steps : List DroneStep
deriving DecidableEq, Repr

/-- `Drone2Stage` in `drone.rs`: the Gen1 payload plus Gen2-only fields. -/
structure Drone2Stage where
  drone_stage : Drone1Stage
  kind : String
  stage_type : String
  depends_on : Option (List String)
deriving DecidableEq, Repr

/-- `DroneStage` in `drone.rs`: untagged union of the two stage shapes. -/
inductive DroneStage where
  | Drone1Stage (stage : Drone1Stage)
  | Drone2Stage (stage : Drone2Stage)
deriving DecidableEq, Repr

/-- `DroneBuildInfo` in `drone.rs`: a BuildSummary plus its ordered stages
(a BuildDetail in the spec's terms). -/
structure DroneBuildInfo where
  build_info : DroneBuildListItem
  stages : List DroneStage
deriving DecidableEq, Repr

/-- Stage name irrespective of variant: the match performed inside
`DroneBuildInfo::get_stage` in `drone.rs`. -/
def DroneStage.name : DroneStage → String
  | .Drone1Stage stage => stage.name
  | .Drone2Stage stage => stage.drone_stage.name

/-- Stage step list irrespective of variant: the match performed inside
`DroneStage::get_step` in `drone.rs`. -/
def DroneStage.steps : DroneStage → List DroneStep
  | .Drone1Stage stage => stage.steps
  | .Drone2Stage stage => stage.drone_stage.steps

/-- Step name irrespective of variant: the match performed inside
`DroneStage::get_step` in `drone.rs`. -/
def DroneStep.name : DroneStep → String
  | .Drone1Step step => step.name
  | .Drone2Step step => step.drone_step.name

/-- `DroneStep::get_status` in `drone.rs`. -/
def DroneStep.get_status : DroneStep → DroneStatus
  | .Drone1Step step => step.status
  | .Drone2Step step => step.drone_step.status

/-- `DroneStep::get_started_timestamp` in `drone.rs`: reads the optional
`started` field and unwraps it; `none` models the panic on an absent value. -/
def DroneStep.get_started_timestamp : DroneStep → Option Int
  | .Drone1Step step => step.started
  | .Drone2Step step => step.drone_step.started

/-- `DroneStep::get_stopped_timestamp` in `drone.rs`: reads the optional
`stopped` field and unwraps it; `none` models the panic on an absent value. -/
def DroneStep.get_stopped_timestamp : DroneStep → Option Int
  | .Drone1Step step => step.stopped
  | .Drone2Step step => step.drone_step.stopped

/-- `DroneStep::elapsed_time` in `drone.rs`:
`get_stopped_timestamp() - get_started_timestamp()`; `none` models the panic
when either timestamp is absent. -/
def DroneStep.elapsed_time (step : DroneStep) : Option Int :=
  match step.get_stopped_timestamp, step.get_started_timestamp with
  | some stopped, some started => some (stopped - started)
  | _, _ => none

/-- `DroneBuildInfo::get_pr_url` in `drone.rs`. -/
def DroneBuildInfo.get_pr_url (b : DroneBuildInfo) : Url :=
  b.build_info.link

/-- Embeds Rust `split('.').next().unwrap()`: the prefix of `s` before its
first dot ( `split` always yields at least one piece, so the unwrap never
fails). -/
def stripTypeSuffix (s : String) : String :=
  (s.data.takeWhile (fun c => c ≠ '.')).asString

/-- `DroneBuildInfo::get_pr_number` in `drone.rs`:
`link.path_segments().unwrap().last().unwrap().split('.').next().unwrap()`.
`none` models the panics: `path_segments()` returning `None`, or the segment
iterator being empty. -/
def DroneBuildInfo.get_pr_number (b : DroneBuildInfo) : Option String :=
  match b.build_info.link.path_segments with
  | none => none
  | some segs =>
    match segs.getLast? with
    | none => none
    | some last => some (stripTypeSuffix last)

/-- `DroneBuildInfo::get_stage` in `drone.rs`:
`stages.iter().filter(|stage| stage_name == <name of stage>).next()`. -/
def DroneBuildInfo.get_stage (b : DroneBuildInfo) (stage_name : String) :
    Option DroneStage :=
  b.stages.find? (fun stage =>
    match stage with
    | .Drone1Stage stage => stage_name == stage.name
    | .Drone2Stage stage => stage_name == stage.drone_stage.name)

/-- `DroneStage::get_step` in `drone.rs`:
`drone_steps.iter().filter(|step| <name of step> == step_name).next()`. -/
def DroneStage.get_step (stage : DroneStage) (step_name : String) :
    Option DroneStep :=
  stage.steps.find? (fun step =>
    match step with
    | .Drone1Step step => step.name == step_name
    | .Drone2Step step => step.drone_step.name == step_name)

/-- Embeds `Regex::new(r"^wallet-platform-.*").is_match(name)` from
`wallet_platform_system_status` in `drone.rs`: the anchored pattern matches
exactly when `name` starts with `wallet-platform-`. -/
def wpMatches (name : String) : Bool :=
  "wallet-platform-".data.isPrefixOf name.data

/-- The `map → filter → fold` pipeline of `wallet_platform_system_status` in
`drone.rs`, processing the stage list element by element exactly as the Rust
iterator chain does: a Gen1-shaped stage panics inside the `map` (modelled by
`none`) before the name filter is consulted; a filtered-out stage leaves the
accumulator untouched; the fold step panics (`none`) on an accumulator other
than Success/Failure. -/
def wallet_platform_fold : DroneStatus → List DroneStage → Option DroneStatus
  | acc, [] => some acc
  | _, .Drone1Stage _ :: _ => none
  | acc, .Drone2Stage stage :: rest =>
    if wpMatches stage.drone_stage.name then
      match acc with
      | .Failure => wallet_platform_fold .Failure rest
      | .Success =>
        wallet_platform_fold
          (match stage.drone_stage.status with
           | .Success => .Success
           | .Skipped => .Success
           | _ => .Failure) rest
      | _ => none
    else
      wallet_platform_fold acc rest

/-- `wallet_platform_system_status` in `drone.rs`. `none` models the panics:
`stages.iter().next().unwrap()` on an empty stage list, the explicit `panic!`
when the first stage (or any mapped stage) is Gen1-shaped, and the
unreachable fold branch. -/
def wallet_platform_system_status (b : DroneBuildInfo) : Option DroneStatus :=
  match b.stages.head? with
  | none => none
  | some (.Drone1Stage _) => none
  | some (.Drone2Stage _) => wallet_platform_fold .Success b.stages

/-- `timestamp_to_system_time` in `main.rs`:
`UNIX_EPOCH + Duration::from_secs(timestamp.unsigned_abs())`, with
`SystemTime` modelled as seconds since the epoch, so the result is never an
instant before the epoch. -/
def timestamp_to_system_time (timestamp : Int) : Nat :=
  timestamp.natAbs

/-- `FilterState` in `main.rs`. `Admit` stands for
`FilterState::DroneBuildInfo(..)`: the carried build detail comes from a
network fetch, which is external I/O outside the pure classification. -/
inductive FilterState where
  | Break
  | Continue
  | Admit
deriving DecidableEq, Repr

/-- `filter_build` in `main.rs`: classify one build-list entry against the
window `[window_end, window_start]` and the mode policy. The two policy
early-returns of the Rust `if develop { .. } else { .. }` block appear as the
two middle branches. -/
def filter_build (item : DroneBuildListItem) (window_start window_end : Nat)
    (develop : Bool) : FilterState :=
  if timestamp_to_system_time item.timestamps.finished < window_end
      ∧ timestamp_to_system_time item.timestamps.created < window_end then
    FilterState.Break
  else if timestamp_to_system_time item.timestamps.finished > window_start
      ∨ timestamp_to_system_time item.timestamps.created < window_end then
    FilterState.Continue
  else if develop ∧ ¬(item.event = DroneEvent.Push ∧ item.source = "develop"
      ∧ item.target = "develop") then
    FilterState.Continue
  else if ¬develop ∧ item.event ≠ DroneEvent.PullRequest then
    FilterState.Continue
  else if item.status = DroneStatus.Running then
    FilterState.Continue
  else
    FilterState.Admit

/-- `Row` in `csv.rs`: one output record of the metrics engine. -/
structure Row where
  pr_number : String
  pr_url : Url
  git_sha : String
  drone1_build_number : Nat
  drone2_build_number : Nat
  drone1_unit_test_status : DroneStatus
  drone1_await_test_status : DroneStatus
  drone2_system_status : DroneStatus
  drone1_unit_test_elapsed_time : Int
  drone2_total_elapsed_time : Int
  await_within_three_minutes_of_unit_test_start : Bool
  delta_await_complete_to_unit_test_start : Int
deriving DecidableEq, Repr

/-- Outcome of processing one correlation bucket inside `write_csv_aux` in
`csv.rs`: either one serialized `Row`, a `continue` to the next bucket
(`skipped`), or a panic aborting the whole run (`panicked`). -/
inductive BucketOutcome where
  | emitted (r : Row)
  | skipped
  | panicked
deriving DecidableEq, Repr

/-- The comparator of `sort_by(|a, b| a.build_info.number.cmp(&b.build_info.number))`
in `csv.rs`, as a boolean total preorder. -/
def buildNumberLe (a b : DroneBuildInfo) : Bool :=
  a.build_info.number ≤ b.build_info.number

/-- The representative selection of `write_csv_aux` in `csv.rs`: stable-sort
the side by build number ascending (Rust `sort_by` and `List.mergeSort` are
both stable, hence extensionally equal here) and take element `[0]`. -/
def representative (builds : List DroneBuildInfo) : Option DroneBuildInfo :=
  (builds.mergeSort buildNumberLe).head?

/-- The body of the per-bucket loop of `write_csv_aux` in `csv.rs` (the loop
header destructures each map entry into the commit sha and the two build
collections), in source order: empty-side check, sort and select representatives, pr-number extraction
(can panic), stage lookup (skip), unit-test step lookup (skip), Skipped check
(skip), await step lookup (skip), system-status fold (can panic), elapsed-time
computations (can panic), row construction. -/
def processBucket (git_sha : String)
    (drone1_builds drone2_builds : List DroneBuildInfo) : BucketOutcome :=
  if drone1_builds.isEmpty ∨ drone2_builds.isEmpty then
    BucketOutcome.skipped
  else
    match representative drone1_builds, representative drone2_builds with
    | some drone1_build, some drone2_build =>
      match drone1_build.get_pr_number with
      | none => BucketOutcome.panicked
      | some pr_number =>
        let pr_url := drone2_build.get_pr_url
        let drone1_build_number := drone1_build.build_info.number
        let drone2_build_number := drone2_build.build_info.number
        match drone1_build.get_stage "build-pull-request" with
        | none => BucketOutcome.skipped
        | some drone1_stage =>
          match drone1_stage.get_step "run-wallet-platform-unit-tests" with
          | none => BucketOutcome.skipped
          | some drone1_unit_test_step =>
            if drone1_unit_test_step.get_status = DroneStatus.Skipped then
              BucketOutcome.skipped
            else
              match drone1_stage.get_step "await-wallet-platform-test-status" with
              | none => BucketOutcome.skipped
              | some drone1_await_test_step =>
                match wallet_platform_system_status drone2_build with
                | none => BucketOutcome.panicked
                | some drone2_system_status =>
                  match drone1_unit_test_step.elapsed_time,
                      drone1_await_test_step.get_stopped_timestamp,
                      drone1_unit_test_step.get_started_timestamp with
                  | some drone1_unit_test_elapsed_time, some await_stopped,
                      some unit_started =>
                    BucketOutcome.emitted
                      { pr_number := pr_number
                        pr_url := pr_url
                        git_sha := git_sha
                        drone1_build_number := drone1_build_number
                        drone2_build_number := drone2_build_number
                        drone1_unit_test_status := drone1_unit_test_step.get_status
                        drone1_await_test_status := drone1_await_test_step.get_status
                        drone2_system_status := drone2_system_status
                        drone1_unit_test_elapsed_time := drone1_unit_test_elapsed_time
                        drone2_total_elapsed_time :=
                          await_stopped - drone2_build.build_info.timestamps.started
                        await_within_three_minutes_of_unit_test_start :=
                          decide (await_stopped - unit_started < 60 * 3)
                        delta_await_complete_to_unit_test_start :=
                          await_stopped - unit_started }
                  | _, _, _ => BucketOutcome.panicked
    | _, _ => BucketOutcome.skipped

/-! ## Specification-side definitions

These restate the specification's words independently of the source, to be
compared with the definitions above. -/

/-- The mode policy as the specification words it: pull-request mode requires
event = pull-request; develop mode requires event = push with source and
target both equal to "develop". -/
def modeMatchesSpec (develop : Bool) (item : DroneBuildListItem) : Prop :=
  (develop = true ∧ item.event = DroneEvent.Push ∧ item.source = "develop"
    ∧ item.target = "develop")
  ∨ (develop = false ∧ item.event = DroneEvent.PullRequest)

instance (develop : Bool) (item : DroneBuildListItem) :
    Decidable (modeMatchesSpec develop item) := by
  unfold modeMatchesSpec
  infer_instance

/-- The window filter's decision order as the specification words it:
STOP when both finish and creation time are strictly before window end;
otherwise SKIP when finished after window start or created before window end;
otherwise SKIP when the event kind mismatches the mode or the status is
Running; otherwise ADMIT. -/
def windowFilterSpec (item : DroneBuildListItem) (window_start window_end : Nat)
    (develop : Bool) : FilterState :=
  if timestamp_to_system_time item.timestamps.finished < window_end
      ∧ timestamp_to_system_time item.timestamps.created < window_end then
    FilterState.Break
  else if timestamp_to_system_time item.timestamps.finished > window_start
      ∨ timestamp_to_system_time item.timestamps.created < window_end then
    FilterState.Continue
  else if ¬ modeMatchesSpec develop item ∨ item.status = DroneStatus.Running then
    FilterState.Continue
  else
    FilterState.Admit

/-- One step of the status fold as the specification words it: Failure is
absorbing; a Success or Skipped stage status leaves the accumulator unchanged;
any other non-Success status flips the accumulator to Failure. -/
def statusFoldStep (acc s : DroneStatus) : DroneStatus :=
  if acc = DroneStatus.Failure then DroneStatus.Failure
  else if s = DroneStatus.Success then acc
  else if s = DroneStatus.Skipped then acc
  else DroneStatus.Failure

/-- The left-to-right status fold starting from Success, over a list of stage
statuses, as the specification words it. -/
def statusFoldSpec (statuses : List DroneStatus) : DroneStatus :=
  statuses.foldl statusFoldStep DroneStatus.Success

/-- `item` with its `finished` and `created` timestamps replaced by their
(integer) absolute values; all other fields unchanged. -/
def absTimestamps (item : DroneBuildListItem) : DroneBuildListItem :=
  { item with timestamps :=
      { item.timestamps with
          finished := |item.timestamps.finished|
          created := |item.timestamps.created| } }

/-! ## Concrete sample data (used by witnesses and counterexamples) -/

/-- A pull-request link whose final path segment carries a `.diff` suffix. -/
def sampleUrl : Url := ⟨some ["BitGo", "bitgo-microservices", "pull", "123.diff"]⟩

def sampleAuthor : DroneBuildAuthorData :=
  { author_login := "octocat"
    author_name := "Octo Cat"
    author_email := "octo@example.com"
    author_avatar := ⟨some ["avatar.png"]⟩ }

/-- A build-list entry with the given build number and link; started = 120. -/
def sampleItem (number : Nat) (link : Url) : DroneBuildListItem :=
  { id := number
    repo_id := 1
    trigger := "octocat"
    number := number
    status := DroneStatus.Success
    event := DroneEvent.PullRequest
    action := "sync"
    link := link
    timestamp := 0
    message := "commit message"
    git_metadata := { prev_git_sha := "prev", git_sha := "abc123",
                      git_ref := "refs/pull/123/head" }
    source_repo := "octocat/bitgo-microservices"
    source := "feature"
    target := "master"
    author_data := sampleAuthor
    sender := "octocat"
    timestamps := { started := 120, finished := 300, created := 90, updated := 300 }
    version := 1 }

def mkStep1 (number : Nat) (name : String) (status : DroneStatus)
    (started stopped : Option Int) : Drone1Step :=
  { id := number
    step_id := number
    number := number
    name := name
    status := status
    errignore := none
    exit_code := 0
    started := started
    stopped := stopped
    version := 1 }

def mkStage1 (number : Nat) (name : String) (status : DroneStatus)
    (steps : List DroneStep) : Drone1Stage :=
  { id := number
    repo_id := 1
    build_id := 1
    number := number
    name := name
    status := status
    errignore := false
    exit_code := 0
    machine := none
    os := "linux"
    arch := "amd64"
    timestamps := { started := 100, stopped := 160, created := 90, updated := 160 }
    version := 1
    on_success := true
    on_failure := false
    steps := steps }

def mkStage2 (number : Nat) (name : String) (status : DroneStatus) : Drone2Stage :=
  { drone_stage := mkStage1 number name status []
    kind := "pipeline"
    stage_type := "docker"
    depends_on := none }

/-- The Gen1 unit-test step: ran from 100 to 160. -/
def unitTestStep : DroneStep :=
  DroneStep.Drone1Step
    (mkStep1 1 "run-wallet-platform-unit-tests" DroneStatus.Success
      (some 100) (some 160))

/-- The Gen1 await step: stopped at 250. -/
def awaitTestStep : DroneStep :=
  DroneStep.Drone1Step
    (mkStep1 2 "await-wallet-platform-test-status" DroneStatus.Success
      (some 200) (some 250))

/-- A step that never ran: both timestamps absent. -/
def pendingStep : DroneStep :=
  DroneStep.Drone1Step
    (mkStep1 3 "skipped-step" DroneStatus.Skipped none none)

/-- Gen1 representative: build 10 with the `build-pull-request` stage. -/
def drone1Rep : DroneBuildInfo :=
  { build_info := sampleItem 10 sampleUrl
    stages := [DroneStage.Drone1Stage
      (mkStage1 1 "build-pull-request" DroneStatus.Success
        [unitTestStep, awaitTestStep])] }

/-- The stage list of the Gen2 representative, as Gen2 payloads. -/
def drone2RepStages : List Drone2Stage :=
  [mkStage2 1 "wallet-platform-api" DroneStatus.Success]

/-- Gen2 representative: build 20, started = 120, one wallet-platform stage. -/
def drone2Rep : DroneBuildInfo :=
  { build_info := sampleItem 20 sampleUrl
    stages := drone2RepStages.map DroneStage.Drone2Stage }

/-- Gen2 stage list mixing wallet-platform and other stages. -/
def gen2MixedStages : List Drone2Stage :=
  [mkStage2 1 "wallet-platform-api" DroneStatus.Success,
   mkStage2 2 "wallet-platform-batch" DroneStatus.Skipped,
   mkStage2 3 "deploy-docs" DroneStatus.Failure]

/-- A Gen2 build whose wallet-platform stages are Success and Skipped, with a
non-matching Failure stage that the name filter must ignore. -/
def gen2MixedBuild : DroneBuildInfo :=
  { build_info := sampleItem 21 sampleUrl
    stages := gen2MixedStages.map DroneStage.Drone2Stage }

/-- An (all-Gen2-shaped, vacuously) build detail with an empty stage list. -/
def emptyStagesBuild : DroneBuildInfo :=
  { build_info := sampleItem 22 sampleUrl
    stages := [] }

/-- A Gen1 build whose link is a cannot-be-a-base URL (no path segments) and
which lacks the `build-pull-request` stage. -/
def badLinkBuild : DroneBuildInfo :=
  { build_info := sampleItem 11 ⟨none⟩
    stages := [] }

/-- A Gen1 build with a well-formed link but no `build-pull-request` stage. -/
def noStageBuild : DroneBuildInfo :=
  { build_info := sampleItem 12 sampleUrl
    stages := [DroneStage.Drone1Stage (mkStage1 1 "compile" DroneStatus.Success [])] }

/-- Two stages sharing the name `dup`, distinguishable by their numbers, the
first Gen1-shaped and the second Gen2-shaped. -/
def dupStageA : DroneStage := DroneStage.Drone1Stage (mkStage1 1 "dup" DroneStatus.Success [])
def dupStageB : DroneStage := DroneStage.Drone2Stage (mkStage2 2 "dup" DroneStatus.Failure)

/-- A build with two stages named `dup` (first wins on lookup). -/
def dupBuild : DroneBuildInfo :=
  { build_info := sampleItem 13 sampleUrl
    stages := [dupStageA, dupStageB] }

/-- A stage holding two steps that share the name `dup-step`. -/
def dupStepA : DroneStep := DroneStep.Drone1Step (mkStep1 1 "dup-step" DroneStatus.Success (some 1) (some 2))
def dupStepB : DroneStep := DroneStep.Drone2Step ⟨mkStep1 2 "dup-step" DroneStatus.Failure (some 3) (some 4), none, "img"⟩
def dupStepStage : DroneStage :=
  DroneStage.Drone1Stage (mkStage1 1 "stage-with-dups" DroneStatus.Success [dupStepA, dupStepB])

/-! ## Helper lemmas -/

theorem tts_abs (t : Int) :
    timestamp_to_system_time |t| = timestamp_to_system_time t := by
  simp [timestamp_to_system_time, Int.natAbs_abs]

theorem buildNumberLe_trans (a b c : DroneBuildInfo) :
    buildNumberLe a b = true → buildNumberLe b c = true →
    buildNumberLe a c = true := by
  simp only [buildNumberLe, decide_eq_true_iff]
  omega

theorem buildNumberLe_total (a b : DroneBuildInfo) :
    (buildNumberLe a b || buildNumberLe b a) = true := by
  simp only [buildNumberLe, Bool.or_eq_true, decide_eq_true_iff]
  omega

theorem representative_singleton (b : DroneBuildInfo) :
    representative [b] = some b := by
  unfold representative
  rw [List.perm_singleton.mp (List.mergeSort_perm [b] buildNumberLe)]
  rfl

theorem representative_isSome {l : List DroneBuildInfo} (h : ¬ l.isEmpty) :
    ∃ b, representative l = some b := by
  unfold representative
  cases hms : l.mergeSort buildNumberLe with
  | nil =>
    have hperm := List.mergeSort_perm l buildNumberLe
    rw [hms] at hperm
    rw [hperm.symm.eq_nil] at h
    simp at h
  | cons hd tl => exact ⟨hd, rfl⟩

theorem representative_min {l : List DroneBuildInfo} {b : DroneBuildInfo}
    (h : representative l = some b) :
    b ∈ l ∧ ∀ x ∈ l, b.build_info.number ≤ x.build_info.number := by
  unfold representative at h
  cases hms : l.mergeSort buildNumberLe with
  | nil => rw [hms] at h; simp at h
  | cons hd tl =>
    rw [hms] at h
    simp only [List.head?_cons, Option.some.injEq] at h
    subst h
    have hperm := List.mergeSort_perm l buildNumberLe
    rw [hms] at hperm
    constructor
    · exact hperm.mem_iff.mp (List.mem_cons_self _ _)
    · intro x hx
      have hx' : x ∈ hd :: tl := hperm.symm.mem_iff.mp hx
      rcases List.mem_cons.mp hx' with rfl | hx''
      · exact le_refl _
      · have hs := List.sorted_mergeSort buildNumberLe_trans buildNumberLe_total l
        rw [hms] at hs
        have := (List.pairwise_cons.mp hs).1 x hx''
        simpa [buildNumberLe] using this

theorem find?_first {α : Type} {p : α → Bool} {l : List α} {a : α}
    (h : l.find? p = some a) :
    p a = true ∧ ∃ l1 l2, l = l1 ++ a :: l2 ∧ ∀ x ∈ l1, p x = false := by
  induction l with
  | nil => simp at h
  | cons hd tl ih =>
    by_cases hp : p hd = true
    · rw [List.find?_cons_of_pos _ hp] at h
      cases h
      exact ⟨hp, [], tl, rfl, by simp⟩
    · rw [List.find?_cons_of_neg _ (by simpa using hp)] at h
      obtain ⟨hpa, l1, l2, rfl, hl1⟩ := ih h
      refine ⟨hpa, hd :: l1, l2, rfl, ?_⟩
      intro x hx
      rcases List.mem_cons.mp hx with rfl | hx'
      · simpa using hp
      · exact hl1 x hx'

theorem stage_matcher_eq (n : String) (s : DroneStage) :
    (match s with
      | DroneStage.Drone1Stage stage => n == stage.name
      | DroneStage.Drone2Stage stage => n == stage.drone_stage.name)
      = (n == s.name) := by
  cases s <;> rfl

theorem step_matcher_eq (n : String) (s : DroneStep) :
    (match s with
      | DroneStep.Drone1Step step => step.name == n
      | DroneStep.Drone2Step step => step.drone_step.name == n)
      = (s.name == n) := by
  cases s <;> rfl

theorem wallet_platform_fold_gen1 (l : List DroneStage) :
    ∀ acc : DroneStatus,
      (∃ s ∈ l, ∃ g1, s = DroneStage.Drone1Stage g1) →
      wallet_platform_fold acc l = none := by
  induction l with
  | nil =>
    intro acc h
    obtain ⟨s, hs, _⟩ := h
    exact absurd hs (List.not_mem_nil s)
  | cons hd tl ih =>
    intro acc h
    cases hd with
    | Drone1Stage g1 => rfl
    | Drone2Stage g2 =>
      have h' : ∃ s ∈ tl, ∃ g1, s = DroneStage.Drone1Stage g1 := by
        obtain ⟨s, hs, g1, rfl⟩ := h
        rcases List.mem_cons.mp hs with heq | hs'
        · exact absurd heq (by simp)
        · exact ⟨_, hs', g1, rfl⟩
      unfold wallet_platform_fold
      by_cases hw : wpMatches g2.drone_stage.name
      · rw [if_pos hw]
        cases acc
        all_goals first
          | exact ih _ h'
          | rfl
      · rw [if_neg hw]
        exact ih _ h'

theorem wallet_platform_fold_gen2 (l : List Drone2Stage) :
    ∀ acc : DroneStatus,
      acc = DroneStatus.Success ∨ acc = DroneStatus.Failure →
      wallet_platform_fold acc (l.map DroneStage.Drone2Stage) =
        some (((l.filter (fun s => wpMatches s.drone_stage.name)).map
          (fun s => s.drone_stage.status)).foldl statusFoldStep acc) := by
  induction l with
  | nil =>
    intro acc _
    rfl
  | cons s rest ih =>
    intro acc hacc
    rw [List.map_cons]
    unfold wallet_platform_fold
    by_cases hw : wpMatches s.drone_stage.name
    · rw [if_pos hw, List.filter_cons_of_pos (by simpa using hw), List.map_cons,
        List.foldl_cons]
      rcases hacc with rfl | rfl
      · have hstep : statusFoldStep DroneStatus.Success s.drone_stage.status
            = (match s.drone_stage.status with
                | DroneStatus.Success => DroneStatus.Success
                | DroneStatus.Skipped => DroneStatus.Success
                | _ => DroneStatus.Failure) := by
          cases s.drone_stage.status <;> rfl
        rw [hstep.symm]
        exact ih _ (by cases s.drone_stage.status <;> simp [statusFoldStep])
      · have hstep : statusFoldStep DroneStatus.Failure s.drone_stage.status
            = DroneStatus.Failure := by
          cases s.drone_stage.status <;> rfl
        rw [hstep]
        exact ih _ (Or.inr rfl)
    · rw [if_neg hw, List.filter_cons_of_neg (by simpa using hw)]
      exact ih _ hacc

theorem dropWhile_head_not {α : Type} (p : α → Bool) (l : List α) :
    l.dropWhile p = [] ∨
      ∃ x xs, l.dropWhile p = x :: xs ∧ p x = false := by
  induction l with
  | nil => left; rfl
  | cons hd tl ih =>
    rw [List.dropWhile_cons]
    by_cases h : p hd = true
    · rw [if_pos h]; exact ih
    · rw [if_neg h]
      right
      exact ⟨hd, tl, rfl, by simpa using h⟩

theorem processBucket_emitted_inv {git_sha : String}
    {drone1_builds drone2_builds : List DroneBuildInfo} {r : Row}
    (h : processBucket git_sha drone1_builds drone2_builds =
      BucketOutcome.emitted r) :
    (¬ drone1_builds.isEmpty ∧ ¬ drone2_builds.isEmpty) ∧
    ∃ b1 b2 pr stage ut aw sys ut_started ut_stopped aw_stopped,
      representative drone1_builds = some b1 ∧
      representative drone2_builds = some b2 ∧
      b1.get_pr_number = some pr ∧
      b1.get_stage "build-pull-request" = some stage ∧
      stage.get_step "run-wallet-platform-unit-tests" = some ut ∧
      ut.get_status ≠ DroneStatus.Skipped ∧
      stage.get_step "await-wallet-platform-test-status" = some aw ∧
      wallet_platform_system_status b2 = some sys ∧
      ut.get_started_timestamp = some ut_started ∧
      ut.get_stopped_timestamp = some ut_stopped ∧
      aw.get_stopped_timestamp = some aw_stopped ∧
      r = { pr_number := pr
            pr_url := b2.get_pr_url
            git_sha := git_sha
            drone1_build_number := b1.build_info.number
            drone2_build_number := b2.build_info.number
            drone1_unit_test_status := ut.get_status
            drone1_await_test_status := aw.get_status
            drone2_system_status := sys
            drone1_unit_test_elapsed_time := ut_stopped - ut_started
            drone2_total_elapsed_time :=
              aw_stopped - b2.build_info.timestamps.started
            await_within_three_minutes_of_unit_test_start :=
              decide (aw_stopped - ut_started < 60 * 3)
            delta_await_complete_to_unit_test_start :=
              aw_stopped - ut_started } := by
  unfold processBucket at h
  split at h
  · exact (BucketOutcome.noConfusion h)
  rename_i hne
  split at h <;> try cases h
  rename_i b1 b2 h1 h2
  dsimp only at h
  split at h <;> try cases h
  rename_i pr hpr
  split at h <;> try cases h
  rename_i stage hstage
  split at h <;> try cases h
  rename_i ut hut
  split at h <;> try cases h
  rename_i hnsk
  split at h <;> try cases h
  rename_i aw haw
  split at h <;> try cases h
  rename_i sys hsys
  split at h <;> try cases h
  rename_i e aw_stopped ut_started helapsed hawstop hutstart
  rw [not_or] at hne
  have hel : ∃ s, ut.get_stopped_timestamp = some s ∧ e = s - ut_started := by
    unfold DroneStep.elapsed_time at helapsed
    cases hstop : ut.get_stopped_timestamp with
    | none =>
      rw [hstop] at helapsed
      simp at helapsed
    | some s =>
      rw [hstop, hutstart] at helapsed
      simp at helapsed
      exact ⟨s, rfl, helapsed.symm⟩
  obtain ⟨s, hstop, rfl⟩ := hel
  exact ⟨⟨hne.1, hne.2⟩, b1, b2, pr, stage, ut, aw, sys, ut_started, s, aw_stopped,
    h1, h2, hpr, hstage, hut, hnsk, haw, hsys, hutstart, hstop, hawstop, rfl⟩

/-- C6 (amended: provided the representative's pull-request-number extraction
succeeds, i.e. its link has path segments — that extraction runs first and
panics otherwise): for every bucket whose Gen1 representative lacks the stage
`build-pull-request`, or lacks the step `run-wallet-platform-unit-tests`, or
lacks the step `await-wallet-platform-test-status` within that stage, or whose
unit-test step has status Skipped, no row is emitted and the outcome is
`skipped` — the per-bucket `continue`, so processing moves on to the remaining
buckets rather than aborting. -/
theorem processBucket_skip_inv {git_sha : String}
    {drone1_builds drone2_builds : List DroneBuildInfo}
    {b1 : DroneBuildInfo} {pr : String}
    (hrep : representative drone1_builds = some b1)
    (hpr : b1.get_pr_number = some pr)
    (hcond : b1.get_stage "build-pull-request" = none ∨
      ∃ stage, b1.get_stage "build-pull-request" = some stage ∧
        (stage.get_step "run-wallet-platform-unit-tests" = none ∨
          ∃ ut, stage.get_step "run-wallet-platform-unit-tests" = some ut ∧
            (ut.get_status = DroneStatus.Skipped ∨
              stage.get_step "await-wallet-platform-test-status" = none))) :
    processBucket git_sha drone1_builds drone2_builds =
      BucketOutcome.skipped := by
  unfold processBucket
  by_cases he : drone1_builds.isEmpty = true ∨ drone2_builds.isEmpty = true
  · rw [if_pos he]
  · rw [if_neg he]
    rw [not_or] at he
    obtain ⟨b2, h2⟩ := representative_isSome (by simpa using he.2)
    rw [hrep, h2]
    dsimp only
    rw [hpr]
    dsimp only
    rcases hcond with hnone | ⟨stage, hstage, hcond⟩
    · rw [hnone]
    · rw [hstage]
      dsimp only
      rcases hcond with hnone | ⟨ut, hut, hcond⟩
      · rw [hnone]
      · rw [hut]
        dsimp only
        rcases hcond with hskip | hnone
        · rw [if_pos hskip]
        · by_cases hsk : ut.get_status = DroneStatus.Skipped
          · rw [if_pos hsk]
          · rw [if_neg hsk, hnone]

/-! ## Claim theorems -/

/-- C1: for every build-list entry, `filter_build` returns exactly one of
STOP (`Break`) / SKIP (`Continue`) / ADMIT (the return type is that
three-valued classification), following the decision order the specification
states: STOP when both the build's finished and created times are strictly
before window end; otherwise SKIP when the finished time is after window start
or the created time is before window end; otherwise SKIP when the event kind
mismatches the active mode (pull-request mode requires event = pull-request;
develop mode requires event = push with source and target both "develop") or
the status is Running; otherwise ADMIT. `windowFilterSpec` restates that
decision order in the specification's words. -/
theorem filter_build_matches_spec (item : DroneBuildListItem)
    (window_start window_end : Nat) (develop : Bool) :
    filter_build item window_start window_end develop =
      windowFilterSpec item window_start window_end develop := by
  unfold filter_build windowFilterSpec
  cases develop <;> split_ifs <;> simp_all [modeMatchesSpec]

/-- C10: the conversion used by the window filter maps a signed epoch-seconds
timestamp t to UNIX_EPOCH + |t| seconds (`Int.natAbs`, the unsigned absolute
value, with `SystemTime` modelled as non-negative seconds since the epoch, so
never an instant before the epoch): a build entry whose finished or created
timestamp is negative is classified exactly as if those timestamps were their
positive absolute values. -/
theorem filter_build_abs_timestamps (item : DroneBuildListItem)
    (window_start window_end : Nat) (develop : Bool) :
    filter_build (absTimestamps item) window_start window_end develop =
      filter_build item window_start window_end develop := by
  unfold filter_build absTimestamps
  simp only [tts_abs]

/-- C2 (amended: the stage list must additionally be non-empty — the code
begins by unwrapping the first stage, so an empty, vacuously all-Gen2 stage
list panics instead of yielding the fold's initial Success): for every
BuildDetail whose stage list is non-empty and entirely Gen2-shaped,
`wallet_platform_system_status` returns, without panicking, exactly the
left-to-right fold — over the statuses of the stages whose name matches
`wallet-platform-*`, starting from Success — in which Failure is absorbing, a
Skipped stage leaves a Success accumulator unchanged, and any other
non-Success stage status flips the accumulator to Failure
(`statusFoldSpec`). -/
theorem wallet_platform_system_status_gen2 (b : DroneBuildInfo)
    (l : List Drone2Stage) (hstages : b.stages = l.map DroneStage.Drone2Stage)
    (hne : l ≠ []) :
    wallet_platform_system_status b =
      some (statusFoldSpec
        ((l.filter (fun s => wpMatches s.drone_stage.name)).map
          (fun s => s.drone_stage.status))) := by
  unfold wallet_platform_system_status
  rw [hstages]
  cases l with
  | nil => exact absurd rfl hne
  | cons s rest =>
    rw [List.map_cons]
    show wallet_platform_fold DroneStatus.Success
      (DroneStage.Drone2Stage s :: rest.map DroneStage.Drone2Stage) = _
    rw [← List.map_cons]
    rw [wallet_platform_fold_gen2 (s :: rest) DroneStatus.Success (Or.inl rfl)]
    rfl

/-- C2 counterexample: the BuildDetail with an empty stage list is vacuously
"all Gen2-shaped", and the fold the claim specifies gives Success on it, but
`wallet_platform_system_status` panics (`stages.iter().next().unwrap()` on an
empty iterator), modelled by `none` — it does not return the fold's value. -/
theorem wallet_platform_system_status_empty_cex :
    emptyStagesBuild.stages = ([] : List Drone2Stage).map DroneStage.Drone2Stage ∧
    statusFoldSpec ((([] : List Drone2Stage).filter
      (fun s => wpMatches s.drone_stage.name)).map
        (fun s => s.drone_stage.status)) = DroneStatus.Success ∧
    wallet_platform_system_status emptyStagesBuild = none :=
  ⟨rfl, rfl, rfl⟩

/-- C2 witness: on a non-empty all-Gen2 build whose wallet-platform stages are
Success and Skipped (plus a Failure stage whose name does not match, which the
filter must ignore), the amended theorem evaluates to Success. -/
theorem wallet_platform_system_status_gen2_witness :
    gen2MixedStages ≠ [] ∧
    wallet_platform_system_status gen2MixedBuild = some DroneStatus.Success :=
  ⟨by simp [gen2MixedStages],
   (wallet_platform_system_status_gen2 gen2MixedBuild gen2MixedStages rfl
     (by simp [gen2MixedStages])).trans rfl⟩

/-- C3: for every emitted output record, unit-test elapsed equals stopped −
started of the unit-test step, total elapsed equals stopped of the await step
minus the started timestamp of the Gen2 representative build, delta equals
stopped of the await step minus started of the unit-test step, and the
within-three-minutes boolean is true iff delta < 180 (hence true at delta =
179 and 0, false at delta = 180). -/
theorem processBucket_metrics {git_sha : String}
    {drone1_builds drone2_builds : List DroneBuildInfo} {r : Row}
    (h : processBucket git_sha drone1_builds drone2_builds =
      BucketOutcome.emitted r) :
    ∃ b1 b2 stage ut aw ut_started ut_stopped aw_stopped,
      representative drone1_builds = some b1 ∧
      representative drone2_builds = some b2 ∧
      b1.get_stage "build-pull-request" = some stage ∧
      stage.get_step "run-wallet-platform-unit-tests" = some ut ∧
      stage.get_step "await-wallet-platform-test-status" = some aw ∧
      ut.get_started_timestamp = some ut_started ∧
      ut.get_stopped_timestamp = some ut_stopped ∧
      aw.get_stopped_timestamp = some aw_stopped ∧
      r.drone1_unit_test_elapsed_time = ut_stopped - ut_started ∧
      r.drone2_total_elapsed_time =
        aw_stopped - b2.build_info.timestamps.started ∧
      r.delta_await_complete_to_unit_test_start = aw_stopped - ut_started ∧
      (r.await_within_three_minutes_of_unit_test_start = true ↔
        r.delta_await_complete_to_unit_test_start < 180) := by
  obtain ⟨-, b1, b2, pr, stage, ut, aw, sys, a, s, ws, h1, h2, hpr, hstage,
    hut, hnsk, haw, hsys, hustart, hustop, hawstop, hr⟩ :=
    processBucket_emitted_inv h
  subst hr
  refine ⟨b1, b2, stage, ut, aw, a, s, ws, h1, h2, hstage, hut, haw, hustart,
    hustop, hawstop, rfl, rfl, rfl, ?_⟩
  rw [decide_eq_true_iff]
  norm_num

/-- C4: computing the system status on a BuildDetail that is not entirely
Gen2-shaped (its stage list contains a Gen1-shaped stage) panics (modelled by
`none`) rather than returning a status. -/
theorem wallet_platform_system_status_gen1_panics (b : DroneBuildInfo)
    (h : ∃ s ∈ b.stages, ∃ g1, s = DroneStage.Drone1Stage g1) :
    wallet_platform_system_status b = none := by
  unfold wallet_platform_system_status
  rcases hb : b.stages with _ | ⟨hd, tl⟩
  · rw [hb] at h
    obtain ⟨s, hs, _⟩ := h
    exact absurd hs (List.not_mem_nil s)
  · rw [hb] at h
    cases hd with
    | Drone1Stage g1 => rfl
    | Drone2Stage g2 =>
      show wallet_platform_fold DroneStatus.Success (DroneStage.Drone2Stage g2 :: tl) = none
      exact wallet_platform_fold_gen1 _ _ h

/-- C4 witness: the Gen1 representative (whose single stage is Gen1-shaped)
makes the system-status computation panic. -/
theorem wallet_platform_system_status_gen1_panics_witness :
    wallet_platform_system_status drone1Rep = none :=
  wallet_platform_system_status_gen1_panics drone1Rep
    ⟨_, List.mem_cons_self _ _, _, rfl⟩

/-- C5: per correlation bucket the metrics writer produces one
`BucketOutcome`, hence at most one row; a row is only emitted when both sides
are non-empty, and then every row field derives from the two representatives:
the members of each side with the lowest build number (each side is sorted by
build number ascending and its first element selected). -/
theorem processBucket_lowest_representatives {git_sha : String}
    {drone1_builds drone2_builds : List DroneBuildInfo} {r : Row}
    (h : processBucket git_sha drone1_builds drone2_builds =
      BucketOutcome.emitted r) :
    drone1_builds ≠ [] ∧ drone2_builds ≠ [] ∧
    ∃ b1 b2,
      representative drone1_builds = some b1 ∧
      representative drone2_builds = some b2 ∧
      b1 ∈ drone1_builds ∧ b2 ∈ drone2_builds ∧
      (∀ x ∈ drone1_builds, b1.build_info.number ≤ x.build_info.number) ∧
      (∀ x ∈ drone2_builds, b2.build_info.number ≤ x.build_info.number) ∧
      r.drone1_build_number = b1.build_info.number ∧
      r.drone2_build_number = b2.build_info.number ∧
      b1.get_pr_number = some r.pr_number ∧
      r.pr_url = b2.get_pr_url ∧
      wallet_platform_system_status b2 = some r.drone2_system_status := by
  obtain ⟨⟨hne1, hne2⟩, b1, b2, pr, stage, ut, aw, sys, a, s, ws, h1, h2, hpr,
    hstage, hut, hnsk, haw, hsys, hustart, hustop, hawstop, hr⟩ :=
    processBucket_emitted_inv h
  subst hr
  obtain ⟨hm1, hmin1⟩ := representative_min h1
  obtain ⟨hm2, hmin2⟩ := representative_min h2
  exact ⟨by simpa using hne1, by simpa using hne2, b1, b2, h1, h2, hm1, hm2,
    hmin1, hmin2, rfl, rfl, hpr, rfl, hsys⟩

/-- The row emitted for the end-to-end sample bucket. -/
def sampleRow : Row :=
  { pr_number := "123"
    pr_url := sampleUrl
    git_sha := "abc123"
    drone1_build_number := 10
    drone2_build_number := 20
    drone1_unit_test_status := DroneStatus.Success
    drone1_await_test_status := DroneStatus.Success
    drone2_system_status := DroneStatus.Success
    drone1_unit_test_elapsed_time := 60
    drone2_total_elapsed_time := 130
    await_within_three_minutes_of_unit_test_start := true
    delta_await_complete_to_unit_test_start := 150 }

/-- The end-to-end sample bucket emits `sampleRow`. -/
theorem sample_emission :
    processBucket "abc123" [drone1Rep] [drone2Rep] =
      BucketOutcome.emitted sampleRow := by
  unfold processBucket
  rw [representative_singleton, representative_singleton]
  rfl

/-- C3 witness: the sample bucket (unit-test step ran 100→160, await step
stopped at 250, Gen2 build started at 120) satisfies the metric equations;
in particular its delta is 150 and the flag is true. -/
theorem processBucket_metrics_witness :
    ∃ b1 b2 stage ut aw ut_started ut_stopped aw_stopped,
      representative [drone1Rep] = some b1 ∧
      representative [drone2Rep] = some b2 ∧
      b1.get_stage "build-pull-request" = some stage ∧
      stage.get_step "run-wallet-platform-unit-tests" = some ut ∧
      stage.get_step "await-wallet-platform-test-status" = some aw ∧
      ut.get_started_timestamp = some ut_started ∧
      ut.get_stopped_timestamp = some ut_stopped ∧
      aw.get_stopped_timestamp = some aw_stopped ∧
      sampleRow.drone1_unit_test_elapsed_time = ut_stopped - ut_started ∧
      sampleRow.drone2_total_elapsed_time =
        aw_stopped - b2.build_info.timestamps.started ∧
      sampleRow.delta_await_complete_to_unit_test_start =
        aw_stopped - ut_started ∧
      (sampleRow.await_within_three_minutes_of_unit_test_start = true ↔
        sampleRow.delta_await_complete_to_unit_test_start < 180) :=
  processBucket_metrics sample_emission

/-- C5 witness: for the sample bucket the emitted row's fields come from the
minimal-numbered representatives of each side. -/
theorem processBucket_lowest_representatives_witness :
    [drone1Rep] ≠ [] ∧ [drone2Rep] ≠ [] ∧
    ∃ b1 b2,
      representative [drone1Rep] = some b1 ∧
      representative [drone2Rep] = some b2 ∧
      b1 ∈ [drone1Rep] ∧ b2 ∈ [drone2Rep] ∧
      (∀ x ∈ [drone1Rep], b1.build_info.number ≤ x.build_info.number) ∧
      (∀ x ∈ [drone2Rep], b2.build_info.number ≤ x.build_info.number) ∧
      sampleRow.drone1_build_number = b1.build_info.number ∧
      sampleRow.drone2_build_number = b2.build_info.number ∧
      b1.get_pr_number = some sampleRow.pr_number ∧
      sampleRow.pr_url = b2.get_pr_url ∧
      wallet_platform_system_status b2 = some sampleRow.drone2_system_status :=
  processBucket_lowest_representatives sample_emission

/-- C6 counterexample: a bucket whose Gen1 representative lacks the
`build-pull-request` stage but whose link has no path segments makes the run
panic (the pr-number unwrap aborts before the stage lookup is reached), so
the claim's "no row is emitted ... and processing continues" fails as stated:
the outcome is `panicked`, not the per-commit `skipped`. -/
theorem processBucket_skip_cex :
    badLinkBuild.get_stage "build-pull-request" = none ∧
    processBucket "abc123" [badLinkBuild] [drone2Rep] =
      BucketOutcome.panicked := by
  refine ⟨rfl, ?_⟩
  unfold processBucket
  rw [representative_singleton, representative_singleton]
  rfl

/-- C6 witness: a Gen1 representative with a well-formed link but no
`build-pull-request` stage is skipped, not fatal. -/
theorem processBucket_skip_witness :
    processBucket "abc123" [noStageBuild] [drone2Rep] =
      BucketOutcome.skipped :=
  processBucket_skip_inv (representative_singleton noStageBuild) rfl
    (Or.inl rfl)

/-- C7: the extracted pull-request number is the final path segment of the
BuildSummary's link with any trailing type suffix stripped — the segment
decomposes as the returned number followed by a suffix, where the number
contains no dot and the suffix is either empty or starts with a dot — and the
extraction fails (panics, modelled by `none`) when the link has no path
segments. -/
theorem get_pr_number_spec (b : DroneBuildInfo) :
    (∀ segs seg, b.build_info.link.path_segments = some segs →
      segs.getLast? = some seg →
      ∃ pr suffix, b.get_pr_number = some pr ∧
        seg.data = pr.data ++ suffix ∧
        (∀ c ∈ pr.data, c ≠ '.') ∧
        (suffix = [] ∨ suffix.head? = some '.')) ∧
    (b.build_info.link.path_segments = none → b.get_pr_number = none) := by
  constructor
  · intro segs seg hsegs hlast
    refine ⟨stripTypeSuffix seg, seg.data.dropWhile (fun c => c ≠ '.'),
      ?_, ?_, ?_, ?_⟩
    · unfold DroneBuildInfo.get_pr_number
      rw [hsegs]
      show (match segs.getLast? with
        | none => none
        | some seg => some (stripTypeSuffix seg)) = some (stripTypeSuffix seg)
      rw [hlast]
    · show seg.data = (seg.data.takeWhile (fun c => c ≠ '.')).asString.data ++ _
      exact (List.takeWhile_append_dropWhile _ _).symm
    · intro c hc
      have hp := List.mem_takeWhile_imp hc
      simpa using hp
    · rcases dropWhile_head_not (fun c => decide (c ≠ '.')) seg.data with
        hnil | ⟨x, xs, hx, hpx⟩
      · left; exact hnil
      · right
        rw [hx]
        simp only [decide_not, Bool.not_eq_false', decide_eq_true_iff] at hpx
        rw [hpx]
        rfl
  · intro hnone
    unfold DroneBuildInfo.get_pr_number
    rw [hnone]

/-- C7 witness: the sample link's final segment `123.diff` yields the number
`123` with suffix `.diff`. -/
theorem get_pr_number_spec_witness :
    ∃ pr suffix, drone1Rep.get_pr_number = some pr ∧
      ("123.diff").data = pr.data ++ suffix ∧
      (∀ c ∈ pr.data, c ≠ '.') ∧
      (suffix = [] ∨ suffix.head? = some '.') :=
  (get_pr_number_spec drone1Rep).1
    ["BitGo", "bitgo-microservices", "pull", "123.diff"] "123.diff" rfl rfl

/-- C8: for every BuildDetail and stage name, and every Stage and step name,
`get_stage` / `get_step` return the first entry in list order whose name
(regardless of its Gen1/Gen2 variant) equals the queried name — every entry
before the returned one has a different name — and return nothing exactly when
no entry matches; with duplicated names the earliest entry wins. -/
theorem get_stage_get_step_first_match (b : DroneBuildInfo) (st : DroneStage)
    (stage_name step_name : String) :
    (∀ s, b.get_stage stage_name = some s →
      s.name = stage_name ∧
      ∃ l1 l2, b.stages = l1 ++ s :: l2 ∧ ∀ t ∈ l1, t.name ≠ stage_name) ∧
    (b.get_stage stage_name = none ↔
      ∀ s ∈ b.stages, s.name ≠ stage_name) ∧
    (∀ s, st.get_step step_name = some s →
      s.name = step_name ∧
      ∃ l1 l2, st.steps = l1 ++ s :: l2 ∧ ∀ t ∈ l1, t.name ≠ step_name) ∧
    (st.get_step step_name = none ↔
      ∀ s ∈ st.steps, s.name ≠ step_name) := by
  have hstage : (fun stage =>
      match stage with
      | DroneStage.Drone1Stage stage => stage_name == stage.name
      | DroneStage.Drone2Stage stage => stage_name == stage.drone_stage.name)
      = (fun s : DroneStage => stage_name == s.name) :=
    funext (stage_matcher_eq stage_name)
  have hstep : (fun step =>
      match step with
      | DroneStep.Drone1Step step => step.name == step_name
      | DroneStep.Drone2Step step => step.drone_step.name == step_name)
      = (fun s : DroneStep => s.name == step_name) :=
    funext (step_matcher_eq step_name)
  refine ⟨?_, ?_, ?_, ?_⟩
  · intro s hs
    unfold DroneBuildInfo.get_stage at hs
    rw [hstage] at hs
    obtain ⟨hp, l1, l2, heq, hl1⟩ := find?_first hs
    refine ⟨(beq_iff_eq.mp hp).symm, l1, l2, heq, ?_⟩
    intro t ht hc
    exact ne_of_beq_false (hl1 t ht) hc.symm
  · unfold DroneBuildInfo.get_stage
    rw [hstage, List.find?_eq_none]
    constructor
    · intro hall s hs hc
      exact hall s hs (beq_iff_eq.mpr hc.symm)
    · intro hall s hs hc
      exact hall s hs (beq_iff_eq.mp hc).symm
  · intro s hs
    unfold DroneStage.get_step at hs
    rw [hstep] at hs
    obtain ⟨hp, l1, l2, heq, hl1⟩ := find?_first hs
    refine ⟨beq_iff_eq.mp hp, l1, l2, heq, ?_⟩
    intro t ht hc
    exact ne_of_beq_false (hl1 t ht) hc
  · unfold DroneStage.get_step
    rw [hstep, List.find?_eq_none]
    constructor
    · intro hall s hs hc
      exact hall s hs (beq_iff_eq.mpr hc)
    · intro hall s hs hc
      exact hall s hs (beq_iff_eq.mp hc)

/-- C8 witness: in a build with two stages named `dup` (the first Gen1-shaped,
the second Gen2-shaped) the lookup returns the first, and in a stage with two
steps named `dup-step` it returns the first; a lookup for an absent name
returns nothing. -/
theorem get_stage_get_step_first_match_witness :
    dupStageA.name = "dup" ∧
    (∃ l1 l2, dupBuild.stages = l1 ++ dupStageA :: l2 ∧
      ∀ t ∈ l1, t.name ≠ "dup") ∧
    dupStepA.name = "dup-step" ∧
    (∃ l1 l2, dupStepStage.steps = l1 ++ dupStepA :: l2 ∧
      ∀ t ∈ l1, t.name ≠ "dup-step") ∧
    (dupBuild.get_stage "absent" = none ↔
      ∀ s ∈ dupBuild.stages, s.name ≠ "absent") := by
  obtain ⟨h1, -, h3, -⟩ :=
    get_stage_get_step_first_match dupBuild dupStepStage "dup" "dup-step"
  obtain ⟨ha, hb⟩ := h1 dupStageA rfl
  obtain ⟨hc, hd⟩ := h3 dupStepA rfl
  exact ⟨ha, hb, hc, hd,
    (get_stage_get_step_first_match dupBuild dupStepStage "absent" "x").2.1⟩

/-- C9: for every Step whose started or stopped timestamp is absent, the
elapsed-time computation (which reads both timestamps and unwraps them) panics
(modelled by `none`) rather than returning a value or a recoverable error; for
every Step with both present, elapsed time equals stopped minus started. -/
theorem elapsed_time_spec (step : DroneStep) :
    ((step.get_started_timestamp = none ∨
        step.get_stopped_timestamp = none) →
      step.elapsed_time = none) ∧
    (∀ started stopped, step.get_started_timestamp = some started →
      step.get_stopped_timestamp = some stopped →
      step.elapsed_time = some (stopped - started)) := by
  unfold DroneStep.elapsed_time
  constructor
  · rintro (h | h)
    · rw [h]
      cases step.get_stopped_timestamp <;> rfl
    · rw [h]
  · intro a s ha hs
    rw [ha, hs]

/-- C9 witness: a step that never ran (both timestamps absent) panics on
elapsed time; the unit-test step that ran 100→160 has elapsed time 60. -/
theorem elapsed_time_spec_witness :
    pendingStep.elapsed_time = none ∧
    unitTestStep.elapsed_time = some 60 :=
  ⟨(elapsed_time_spec pendingStep).1 (Or.inl rfl),
   (elapsed_time_spec unitTestStep).2 100 160 rfl rfl⟩
